import Mathlib

set_option maxHeartbeats 1000000

/-!
Shallow embedding of `src/dataServices/dynamoDbBundleServiceHelper.ts`
(fhir-works-on-aws-persistence-ddb).

The module under verification is the static class `DynamoDbBundleServiceHelper`
with three entry points:

* `generateStagingRequests`: turns an ordered batch of create/update/delete/read
  operations into staged write requests, read requests, lock descriptors
  (`newLocks`) and per-operation response placeholders (`newStagingResponses`);
* `generateRollbackRequests`: computes the compensating deletes and the
  lock-release descriptors from a response list;
* `populateBundleEntryResponseWithReadResult`: fills the `read` placeholders of
  a response list from the raw read results, in order.

Conventions of the embedding:

* JavaScript `undefined` for a missing map entry / missing object field is
  `Option.none`; `undefined.toString()` raises a `TypeError`, so the staging
  generator is `Except`-valued.
* JavaScript number-to-string conversion (`vid.toString()`) is `natToString10`
  and `parseInt(s, 10)` is `parseInt10` (NaN is `none`); versions in this
  module are natural numbers.
* The two implicit effectful collaborators of the source — `uuidv4()` and
  `new Date().toISOString()` — are modelled as explicit oracle streams
  (`StagingEnv`), indexed by the number of calls made so far in the invocation.
* Collaborators that live in this repository but outside the given source file
  (`DynamoDbUtil`, `DynamoDbParamBuilder`, `documentStatus`, `dynamoDb`) are
  modelled from the spec; each such definition carries a doc comment starting
  with `Modelled from the spec:`.
-/

/-- Operation kinds of `fhir-works-on-aws-interface`.  The source switches on
`create`/`update`/`delete`/`read`; the remaining `TypeOperation` values (two
representatives suffice, e.g. `vread` and `patch`) fall into the `default`
branch of the switch. -/
inductive Operation
  | create
  | update
  | delete
  | read
  | vread
  | patch
deriving DecidableEq, Repr

/-- Modelled from the spec: the shared status enum (`documentStatus.ts`, not
under `src/`); the spec names the four values PENDING, LOCKED, PENDING_DELETE
and DELETED. -/
inductive DOCUMENT_STATUS
  | PENDING
  | LOCKED
  | PENDING_DELETE
  | DELETED
deriving DecidableEq, Repr

/-- Resource metadata (`resource.meta`): the version rendered as a string plus
the last-updated stamp, as produced for the staged document. -/
structure Meta where
  versionId : String
  lastUpdated : String
deriving DecidableEq, Repr

/-- An opaque FHIR resource payload.  Only the fields this module reads are
modelled (`id`, `resourceType`, `meta`); everything else is the opaque
`payload`.  The incoming `meta` is always overwritten before being read, so it
is modelled as always present. -/
structure Resource where
  id : String
  resourceType : String
  meta : Meta
  payload : Nat
deriving DecidableEq, Repr

/-- Modelled from the spec: the staged row produced by
`DynamoDbUtil.prepItemForDdbInsert` (not under `src/`): the fully-formed
document content plus the internal-only bookkeeping attributes (document
status, numeric version, tenant scope). -/
structure DdbItem where
  content : Resource
  documentStatus : DOCUMENT_STATUS
  vid : Nat
  tenantId : Option String
deriving DecidableEq, Repr

/-- Output of the external `DynamoDBConverter.marshall` codec: an opaque
wrapper around the marshalled value (the codec is specified only at its
boundary; marshalling is modelled as structure preserving). -/
structure Marshalled (α : Type) where
  value : α
deriving DecidableEq, Repr

/-- The point-read key `{ id: buildHashKey(id, tenantId), vid }` of the `read`
branch.  `vid` is `none` when the identifier is absent from the version
mapping (JavaScript `undefined`). -/
structure DdbKey where
  id : String
  vid : Option Nat
deriving DecidableEq, Repr

/-- A `{ Put: { TableName, Item } }` write request (the `Put` wrapper is
flattened). -/
structure PutRequest where
  tableName : String
  item : Marshalled DdbItem
deriving DecidableEq, Repr

/-- A `{ Get: { TableName, Key } }` read request (the `Get` wrapper is
flattened). -/
structure GetRequest where
  tableName : String
  key : Marshalled DdbKey
deriving DecidableEq, Repr

/-- Modelled from the spec: the conditional status-transition request built by
`DynamoDbParamBuilder.buildUpdateDocumentStatusParam` (not under `src/`); per
spec section 6 the builder is given exactly these logical arguments.  `vid` is
`none` when the version was `undefined`. -/
structure UpdateDocumentStatusParam where
  oldStatus : DOCUMENT_STATUS
  newStatus : DOCUMENT_STATUS
  id : String
  vid : Option Nat
  resourceType : String
  tenantId : Option String
deriving DecidableEq, Repr

/-- Modelled from the spec: the conditional delete request built by
`DynamoDbParamBuilder.buildDeleteParam` (not under `src/`); the builder is
given the identifier, the parsed numeric version (`none` models NaN) and the
tenant scope. -/
structure DeleteParam where
  id : String
  vid : Option Nat
  tenantId : Option String
deriving DecidableEq, Repr

/-- The per-operation input of the staging generator
(`BatchReadWriteRequest` of `fhir-works-on-aws-interface`; the fields this
module reads).  An absent / empty `id` is the falsy empty string. -/
structure BatchReadWriteRequest where
  id : String
  resourceType : String
  operation : Operation
  resource : Resource
deriving DecidableEq, Repr

/-- The per-operation outcome (`BatchReadWriteResponse`): caller-facing entry
with the version rendered as a string.  `resource := none` models the empty
`{}` payload of `delete`/`read` placeholders. -/
structure BatchReadWriteResponse where
  id : String
  vid : String
  operation : Operation
  lastModified : String
  resource : Option Resource
  resourceType : String
deriving DecidableEq, Repr

/-- The lock descriptor (`ItemRequest` of the source).  `vid := none` models
both an absent optional field and NaN from `parseInt`;
`isOriginalUpdateItem := none` models the absent optional flag. -/
structure ItemRequest where
  id : String
  vid : Option Nat
  resourceType : String
  operation : Operation
  isOriginalUpdateItem : Option Bool
deriving DecidableEq, Repr

/-- The lock-release descriptor `{ id, vid, resourceType }` computed by the
rollback generator; `vid` is the version string copied from the response. -/
structure ItemToRemoveFromLock where
  id : String
  vid : String
  resourceType : String
deriving DecidableEq, Repr

/-- One element of `readResult.Responses`: its `Item` is absent when the row
vanished. -/
structure ReadResultEntry where
  Item : Option (Marshalled DdbItem)
deriving DecidableEq, Repr

/-- The raw result of the batched read (`readResult`), an object holding the
`Responses` array. -/
structure ReadResult where
  Responses : List ReadResultEntry
deriving DecidableEq, Repr

/-- A JavaScript exception: `typeError` models the `TypeError` raised by
property access on `undefined` (here: `vid.toString()` when the identifier is
absent from the version mapping); `thrownError` models an explicit
`throw new Error(message)`. -/
inductive JsError
  | typeError (message : String)
  | thrownError (message : String)
deriving DecidableEq, Repr

/-- The implicit effectful collaborators of `generateStagingRequests`,
made explicit: `uuid n` is the result of the `(n+1)`-th `uuidv4()` call of the
invocation and `clock n` the result of the `(n+1)`-th
`new Date().toISOString()` call. -/
structure StagingEnv where
  uuid : Nat → String
  clock : Nat → String

/-- The mutable closure state of the `requests.forEach` loop of
`generateStagingRequests`: the six accumulated output lists plus the number of
`uuidv4()` / `new Date()` calls made so far. -/
structure StagingState where
  deleteRequests : List UpdateDocumentStatusParam
  createRequests : List PutRequest
  updateRequests : List PutRequest
  readRequests : List GetRequest
  newLocks : List ItemRequest
  newBundleEntryResponses : List BatchReadWriteResponse
  uuidCalls : Nat
  clockCalls : Nat
deriving DecidableEq, Repr

/-- The object literal returned by `generateStagingRequests`. -/
structure StagingOutput where
  deleteRequests : List UpdateDocumentStatusParam
  createRequests : List PutRequest
  updateRequests : List PutRequest
  readRequests : List GetRequest
  newLocks : List ItemRequest
  newStagingResponses : List BatchReadWriteResponse
deriving DecidableEq, Repr

/-- Projection from the loop state to the returned object. -/
def StagingState.output (st : StagingState) : StagingOutput :=
  { deleteRequests := st.deleteRequests
    createRequests := st.createRequests
    updateRequests := st.updateRequests
    readRequests := st.readRequests
    newLocks := st.newLocks
    newStagingResponses := st.newBundleEntryResponses }

/-- The empty initial loop state. -/
def StagingState.init : StagingState :=
  { deleteRequests := []
    createRequests := []
    updateRequests := []
    readRequests := []
    newLocks := []
    newBundleEntryResponses := []
    uuidCalls := 0
    clockCalls := 0 }

/-- The object literal returned by `generateRollbackRequests`. -/
structure RollbackOutput where
  transactionRequests : List DeleteParam
  itemsToRemoveFromLock : List ItemToRemoveFromLock
deriving DecidableEq, Repr

/-- Decimal digit character (`'0'` + d). -/
def digitChar10 (d : Nat) : Char := Char.ofNat (48 + d)

/-- Fuelled most-significant-first decimal digit expansion (the fuel is an
upper bound on the argument, so it never runs out). -/
def natDigitsGo (fuel n : Nat) (acc : List Char) : List Char :=
  match fuel with
  | 0 => acc
  | fuel' + 1 =>
    if n < 10 then digitChar10 n :: acc
    else natDigitsGo fuel' (n / 10) (digitChar10 (n % 10) :: acc)

/-- JavaScript `Number.prototype.toString()` for the natural numbers this
module stringifies (`vid.toString()`). -/
def natToString10 (n : Nat) : String := ⟨natDigitsGo (n + 1) n []⟩

/-- One step of decimal accumulation while parsing. -/
def digitStep (m : Nat) (c : Char) : Nat := m * 10 + (c.toNat - 48)

/-- JavaScript `parseInt(s, 10)` for the decimal-numeral strings this module
produces: the value of the leading run of digits, `none` (NaN) when that run
is empty (sign and whitespace handling is not exercised by this module). -/
def parseInt10 (s : String) : Option Nat :=
  let ds := s.toList.takeWhile Char.isDigit
  if ds.isEmpty then none else some (ds.foldl digitStep 0)

/-- Modelled from the spec: the physical table name constant `RESOURCE_TABLE`
(`dynamoDb.ts`, not under `src/`); an opaque constant. -/
def RESOURCE_TABLE : String := "resource-db"

/-- Modelled from the spec: `buildHashKey` (`dynamoDbUtil.ts`, not under
`src/`) "combines resource id and tenant scope into a lookup key". -/
def buildHashKey (id : String) (tenantId : Option String) : String :=
  match tenantId with
  | some t => t ++ "|" ++ id
  | none => id

/-- Modelled from the spec: the staged last-updated stamp written by
`prepItemForDdbInsert`.  The spec (section 5) describes the staging
transformation as deterministic, so the stamp is an opaque constant of the
model. -/
def stagingLastUpdated : String := "staging-last-updated"

/-- Modelled from the spec: `DynamoDbUtil.prepItemForDdbInsert`
(`dynamoDbUtil.ts`, not under `src/`) produces the fully-formed staged
document: the resource content with the given identifier, metadata carrying
the version rendered as a string, the given lifecycle status and the tenant
scope (spec sections 3 and 4.1). -/
def DynamoDbUtil.prepItemForDdbInsert (resource : Resource) (id : String) (vid : Nat)
    (documentStatus : DOCUMENT_STATUS) (tenantId : Option String) : DdbItem :=
  { content := { resource with
      id := id
      meta := { versionId := natToString10 vid, lastUpdated := stagingLastUpdated } }
    documentStatus := documentStatus
    vid := vid
    tenantId := tenantId }

/-- Modelled from the spec: `DynamoDbUtil.cleanItem` (`dynamoDbUtil.ts`, not
under `src/`) "decodes the raw result into the document payload, strips
internal-only fields" (spec section 4.2): it keeps the document content and
drops the internal bookkeeping attributes. -/
def DynamoDbUtil.cleanItem (item : DdbItem) : Resource := item.content

/-- The external `DynamoDBConverter.marshall` codec, modelled as structure
preserving (spec section 6: the codec is out of scope, specified only at the
boundary). -/
def DynamoDBConverter.marshall {α : Type} (x : α) : Marshalled α := ⟨x⟩

/-- The external `DynamoDBConverter.unmarshall` codec, inverse of
`DynamoDBConverter.marshall`. -/
def DynamoDBConverter.unmarshall {α : Type} (m : Marshalled α) : α := m.value

/-- Modelled from the spec: `DynamoDbParamBuilder.buildUpdateDocumentStatusParam`
(`dynamoDbParamBuilder.ts`, not under `src/`) builds the conditional
status-transition request from exactly the logical arguments this module
passes (spec section 6). -/
def DynamoDbParamBuilder.buildUpdateDocumentStatusParam (oldStatus newStatus : DOCUMENT_STATUS)
    (id : String) (vid : Option Nat) (resourceType : String) (tenantId : Option String) :
    UpdateDocumentStatusParam :=
  { oldStatus := oldStatus
    newStatus := newStatus
    id := id
    vid := vid
    resourceType := resourceType
    tenantId := tenantId }

/-- Modelled from the spec: `DynamoDbParamBuilder.buildDeleteParam`
(`dynamoDbParamBuilder.ts`, not under `src/`) builds the conditional delete
request from the identifier, the numeric version and the tenant scope (spec
section 6). -/
def DynamoDbParamBuilder.buildDeleteParam (id : String) (vid : Option Nat)
    (tenantId : Option String) : DeleteParam :=
  { id := id, vid := vid, tenantId := tenantId }

/-- Direct translation of the private static
`addStagingResponseAndItemsLocked(operation, resource)`: builds the
fully-populated response and the lock descriptor from the given resource; the
`isOriginalUpdateItem` flag is set (to `false`) only for `update`. -/
def DynamoDbBundleServiceHelper.addStagingResponseAndItemsLocked (operation : Operation)
    (resource : Resource) : BatchReadWriteResponse × ItemRequest :=
  let stagingResponse : BatchReadWriteResponse :=
    { id := resource.id
      vid := resource.meta.versionId
      operation := operation
      lastModified := resource.meta.lastUpdated
      resourceType := resource.resourceType
      resource := some resource }
  let itemLocked : ItemRequest :=
    { id := resource.id
      vid := parseInt10 resource.meta.versionId
      resourceType := resource.resourceType
      operation := operation
      isOriginalUpdateItem := if operation = Operation.update then some false else none }
  (stagingResponse, itemLocked)

/-- Direct translation of the body of the `requests.forEach` loop of
`generateStagingRequests`: one switch step over a single request, threading
the closure state.  In the `delete` and `read` branches the request is built
with the (possibly `undefined`) version first; `vid.toString()` then raises a
`TypeError` when the identifier is absent from the version mapping, so the
partially-extended state of those two branches is discarded with the throw,
exactly as the source's local arrays are. -/
def DynamoDbBundleServiceHelper.stepRequest (idToVersionId : String → Option Nat)
    (tenantId : Option String) (env : StagingEnv) (st : StagingState)
    (request : BatchReadWriteRequest) : Except JsError StagingState :=
  match request.operation with
  | Operation.create =>
    let generatedId := env.uuid st.uuidCalls
    let id := if request.id = "" then generatedId else request.id
    let vid := 1
    let Item := DynamoDbUtil.prepItemForDdbInsert request.resource id vid
      DOCUMENT_STATUS.PENDING tenantId
    let pr := DynamoDbBundleServiceHelper.addStagingResponseAndItemsLocked request.operation
      { request.resource with meta := Item.content.meta, id := id }
    Except.ok { st with
      createRequests := st.createRequests ++
        [{ tableName := RESOURCE_TABLE, item := DynamoDBConverter.marshall Item }]
      newBundleEntryResponses := st.newBundleEntryResponses ++ [pr.1]
      newLocks := st.newLocks ++ [pr.2]
      uuidCalls := st.uuidCalls + 1 }
  | Operation.update =>
    let id := request.resource.id
    let vid := (idToVersionId id).getD 0 + 1
    let Item := DynamoDbUtil.prepItemForDdbInsert request.resource id vid
      DOCUMENT_STATUS.PENDING tenantId
    let pr := DynamoDbBundleServiceHelper.addStagingResponseAndItemsLocked request.operation
      { request.resource with meta := Item.content.meta }
    Except.ok { st with
      updateRequests := st.updateRequests ++
        [{ tableName := RESOURCE_TABLE, item := DynamoDBConverter.marshall Item }]
      newBundleEntryResponses := st.newBundleEntryResponses ++ [pr.1]
      newLocks := st.newLocks ++ [pr.2] }
  | Operation.delete =>
    let id := request.id
    let resourceType := request.resourceType
    let vid := idToVersionId id
    let st1 : StagingState := { st with deleteRequests := st.deleteRequests ++
      [DynamoDbParamBuilder.buildUpdateDocumentStatusParam DOCUMENT_STATUS.LOCKED
        DOCUMENT_STATUS.PENDING_DELETE id vid resourceType tenantId] }
    match vid with
    | none => Except.error (JsError.typeError "Cannot read properties of undefined")
    | some v =>
      Except.ok { st1 with
        newBundleEntryResponses := st1.newBundleEntryResponses ++
          [{ id := id
             vid := natToString10 v
             operation := request.operation
             lastModified := env.clock st.clockCalls
             resource := none
             resourceType := request.resourceType }]
        clockCalls := st.clockCalls + 1 }
  | Operation.read =>
    let id := request.id
    let vid := idToVersionId id
    let st1 : StagingState := { st with readRequests := st.readRequests ++
      [{ tableName := RESOURCE_TABLE
         key := DynamoDBConverter.marshall
           ({ id := buildHashKey id tenantId, vid := vid } : DdbKey) }] }
    match vid with
    | none => Except.error (JsError.typeError "Cannot read properties of undefined")
    | some v =>
      Except.ok { st1 with
        newBundleEntryResponses := st1.newBundleEntryResponses ++
          [{ id := id
             vid := natToString10 v
             operation := request.operation
             lastModified := ""
             resource := none
             resourceType := request.resourceType }] }
  | _ => Except.ok st

/-- Direct translation of the static
`generateStagingRequests(requests, idToVersionId, tenantId)`: the `forEach`
loop over the batch, returning the six accumulated lists.  The `env` argument
makes the two implicit collaborators (`uuidv4`, `new Date`) explicit. -/
def DynamoDbBundleServiceHelper.generateStagingRequests
    (requests : List BatchReadWriteRequest) (idToVersionId : String → Option Nat)
    (tenantId : Option String) (env : StagingEnv) : Except JsError StagingOutput :=
  Except.map StagingState.output
    (List.foldlM (DynamoDbBundleServiceHelper.stepRequest idToVersionId tenantId env)
      StagingState.init requests)

/-- Direct translation of the private static
`generateDeleteLatestRecordAndItemToRemoveFromLock(resourceType, id, vid,
tenantId)`. -/
def DynamoDbBundleServiceHelper.generateDeleteLatestRecordAndItemToRemoveFromLock
    (resourceType : String) (id : String) (vid : String) (tenantId : Option String) :
    DeleteParam × ItemToRemoveFromLock :=
  let transactionRequest := DynamoDbParamBuilder.buildDeleteParam id (parseInt10 vid) tenantId
  let itemToRemoveFromLock : ItemToRemoveFromLock :=
    { id := id, vid := vid, resourceType := resourceType }
  (transactionRequest, itemToRemoveFromLock)

/-- Direct translation of the body of the `bundleEntryResponses.forEach` loop
of `generateRollbackRequests`: `create`/`update` entries contribute one
compensating delete and one lock-release descriptor; everything else is
skipped. -/
def DynamoDbBundleServiceHelper.rollbackStep (tenantId : Option String)
    (acc : RollbackOutput) (stagingResponse : BatchReadWriteResponse) : RollbackOutput :=
  match stagingResponse.operation with
  | Operation.create | Operation.update =>
    let pr := DynamoDbBundleServiceHelper.generateDeleteLatestRecordAndItemToRemoveFromLock
      stagingResponse.resourceType stagingResponse.id stagingResponse.vid tenantId
    { transactionRequests := acc.transactionRequests ++ [pr.1]
      itemsToRemoveFromLock := acc.itemsToRemoveFromLock ++ [pr.2] }
  | _ => acc

/-- Direct translation of the static
`generateRollbackRequests(bundleEntryResponses, tenantId)`. -/
def DynamoDbBundleServiceHelper.generateRollbackRequests
    (bundleEntryResponses : List BatchReadWriteResponse) (tenantId : Option String) :
    RollbackOutput :=
  List.foldl (DynamoDbBundleServiceHelper.rollbackStep tenantId)
    { transactionRequests := [], itemsToRemoveFromLock := [] } bundleEntryResponses

/-- The optional-chained lookup `readResult?.Responses[index]?.Item`: `none`
when `readResult` is absent, the index is out of range, or the entry has no
`Item`. -/
def DynamoDbBundleServiceHelper.readResultItemAt (readResult : Option ReadResult)
    (index : Nat) : Option (Marshalled DdbItem) :=
  match readResult with
  | none => none
  | some rr =>
    match rr.Responses[index]? with
    | none => none
    | some entry => entry.Item

/-- Direct translation of the `for` loop of
`populateBundleEntryResponseWithReadResult`: walks the responses, consuming
`readResult.Responses` in order at `read` entries (the `index` counter is
advanced only there); a missing item throws
`Error('Failed to fulfill all READ requests')`; otherwise the entry's
`resource` and `lastModified` are overwritten in place. -/
def DynamoDbBundleServiceHelper.populateGo (readResult : Option ReadResult) :
    List BatchReadWriteResponse → Nat → Except JsError (List BatchReadWriteResponse)
  | [], _ => Except.ok []
  | stagingResponse :: rest, index =>
    if stagingResponse.operation = Operation.read then
      match DynamoDbBundleServiceHelper.readResultItemAt readResult index with
      | none => Except.error (JsError.thrownError "Failed to fulfill all READ requests")
      | some m =>
        let item := DynamoDbUtil.cleanItem (DynamoDBConverter.unmarshall m)
        let updated := { stagingResponse with
          resource := some item
          lastModified := if item.meta.lastUpdated = "" then "" else item.meta.lastUpdated }
        Except.map (fun tail => updated :: tail)
          (DynamoDbBundleServiceHelper.populateGo readResult rest (index + 1))
    else
      Except.map (fun tail => stagingResponse :: tail)
        (DynamoDbBundleServiceHelper.populateGo readResult rest index)

/-- Direct translation of the static
`populateBundleEntryResponseWithReadResult(bundleEntryResponses, readResult)`
(the source mutates the list in place and returns it; the embedding returns
the updated list). -/
def DynamoDbBundleServiceHelper.populateBundleEntryResponseWithReadResult
    (bundleEntryResponses : List BatchReadWriteResponse) (readResult : Option ReadResult) :
    Except JsError (List BatchReadWriteResponse) :=
  DynamoDbBundleServiceHelper.populateGo readResult bundleEntryResponses 0

/-- Holds of the operation kinds the switch of `generateStagingRequests`
recognizes (the other kinds fall into its silent `default` branch). -/
def isRecognized (op : Operation) : Bool :=
  match op with
  | Operation.create | Operation.update | Operation.delete | Operation.read => true
  | _ => false

/-- Holds when the request cannot hit the `undefined.toString()` `TypeError`:
`delete`/`read` requests must have their identifier in the version mapping. -/
def versionKnown (idToVersionId : String → Option Nat) (request : BatchReadWriteRequest) :
    Bool :=
  match request.operation with
  | Operation.delete | Operation.read => (idToVersionId request.id).isSome
  | _ => true

/-- Number of `read` entries of a response list. -/
def countReads (responses : List BatchReadWriteResponse) : Nat :=
  (responses.filter (fun r => r.operation = Operation.read)).length

/-- Length of the raw read-result sequence (`0` when `readResult` is absent). -/
def rawResultLength (readResult : Option ReadResult) : Nat :=
  match readResult with
  | none => 0
  | some rr => rr.Responses.length

/-- A concrete resource used by the witness and counterexample instances. -/
def sampleResource : Resource :=
  { id := "p1", resourceType := "Patient"
    meta := { versionId := "", lastUpdated := "" }
    payload := 0 }

/-- A concrete oracle environment for the instances. -/
def sampleEnv : StagingEnv :=
  { uuid := fun n => String.append "uuid-" (natToString10 n)
    clock := fun n => String.append "clock-" (natToString10 n) }

/-- A second concrete oracle environment whose wall clock reads differently
(a later invocation time). -/
def sampleEnvB : StagingEnv :=
  { uuid := fun n => String.append "uuid-" (natToString10 n)
    clock := fun n => String.append "later-" (natToString10 n) }

/-- A concrete four-operation batch: one of each recognized kind. -/
def sampleBatch : List BatchReadWriteRequest :=
  [{ id := "w1", resourceType := "Patient", operation := Operation.create,
     resource := sampleResource },
   { id := "", resourceType := "Patient", operation := Operation.update,
     resource := sampleResource },
   { id := "w3", resourceType := "Patient", operation := Operation.delete,
     resource := sampleResource },
   { id := "w4", resourceType := "Patient", operation := Operation.read,
     resource := sampleResource }]

/-- The concrete version mapping matching `sampleBatch` (the update targets
`sampleResource.id = "p1"`). -/
def sampleMap : String → Option Nat := fun s =>
  if s = "p1" then some 2 else if s = "w3" then some 3 else
  if s = "w4" then some 1 else none

/-- A concrete single-update batch. -/
def sampleBatchU : List BatchReadWriteRequest :=
  [{ id := "", resourceType := "Patient", operation := Operation.update,
     resource := sampleResource }]

/-- A concrete single-delete batch with a mapped identifier. -/
def sampleBatchD : List BatchReadWriteRequest :=
  [{ id := "p1", resourceType := "Patient", operation := Operation.delete,
     resource := sampleResource }]

/-- Decidable equality of `Except` results, used to evaluate the concrete
instances. -/
instance {ε α : Type} [DecidableEq ε] [DecidableEq α] : DecidableEq (Except ε α) := fun a b =>
  match a, b with
  | Except.ok x, Except.ok y =>
    if h : x = y then Decidable.isTrue (by rw [h])
    else Decidable.isFalse (fun hc => h (Except.ok.inj hc))
  | Except.error e, Except.error f =>
    if h : e = f then Decidable.isTrue (by rw [h])
    else Decidable.isFalse (fun hc => h (Except.error.inj hc))
  | Except.ok x, Except.error f => Decidable.isFalse (fun hc => Except.noConfusion hc)
  | Except.error e, Except.ok y => Decidable.isFalse (fun hc => Except.noConfusion hc)

/-- The staged content of the update of `sampleBatchU` (version 3 of
`"p1"`). -/
def sampleResourceU3 : Resource :=
  { id := "p1", resourceType := "Patient"
    meta := { versionId := "3", lastUpdated := "staging-last-updated" }
    payload := 0 }

/-- The staging output of `sampleBatchU` under `sampleMap` (the update of
`"p1"`, currently at version 2, staged at version 3). -/
def sampleOutU : StagingOutput :=
  { deleteRequests := []
    createRequests := []
    updateRequests := [{ tableName := "resource-db"
                         item := { value := { content := sampleResourceU3
                                              documentStatus := DOCUMENT_STATUS.PENDING
                                              vid := 3
                                              tenantId := none } } }]
    readRequests := []
    newLocks := [{ id := "p1", vid := some 3, resourceType := "Patient"
                   operation := Operation.update, isOriginalUpdateItem := some false }]
    newStagingResponses := [{ id := "p1", vid := "3", operation := Operation.update
                              lastModified := "staging-last-updated"
                              resource := some sampleResourceU3
                              resourceType := "Patient" }] }

/-- A concrete delete-free batch (create, update, read) with a pre-supplied
create identifier. -/
def sampleBatchND : List BatchReadWriteRequest :=
  [{ id := "w1", resourceType := "Patient", operation := Operation.create,
     resource := sampleResource },
   { id := "", resourceType := "Patient", operation := Operation.update,
     resource := sampleResource },
   { id := "w4", resourceType := "Patient", operation := Operation.read,
     resource := sampleResource }]

/-- A concrete `read` placeholder response. -/
def sampleReadResponse : BatchReadWriteResponse :=
  { id := "p1", vid := "1", operation := Operation.read, lastModified := ""
    resource := none, resourceType := "Patient" }

/-- A concrete stored row returned by the batched read. -/
def sampleDbItem : DdbItem :=
  { content := { id := "p1", resourceType := "Patient"
                 meta := { versionId := "1", lastUpdated := "2020-01-01" }
                 payload := 5 }
    documentStatus := DOCUMENT_STATUS.LOCKED
    vid := 1
    tenantId := none }

/-- A concrete raw read result holding `sampleDbItem`. -/
def sampleReadResult : ReadResult :=
  { Responses := [{ Item := some { value := sampleDbItem } }] }

/-- The `read` placeholder after reconciliation with `sampleDbItem`. -/
def sampleFilledResponse : BatchReadWriteResponse :=
  { id := "p1", vid := "1", operation := Operation.read, lastModified := "2020-01-01"
    resource := some sampleDbItem.content, resourceType := "Patient" }

/-- A concrete non-`read` (create) response entry. -/
def sampleCreateResponse : BatchReadWriteResponse :=
  { id := "c1", vid := "1", operation := Operation.create, lastModified := "t"
    resource := none, resourceType := "Patient" }

/-! Generic helper lemmas about `Except` and lists. -/

/-- Mapping over a successful `Except` value. -/
theorem exceptMapOk {ε α β : Type} (f : α → β) (a : α) :
    Except.map f (Except.ok a : Except ε α) = Except.ok (f a) := rfl

/-- Mapping over a failed `Except` value. -/
theorem exceptMapError {ε α β : Type} (f : α → β) (e : ε) :
    Except.map f (Except.error e : Except ε α) = Except.error e := rfl

/-- A `takeWhile` whose predicate holds everywhere returns the whole list. -/
theorem takeWhileAll {α : Type} (p : α → Bool) :
    ∀ l : List α, (∀ a ∈ l, p a = true) → l.takeWhile p = l := by
  intro l
  induction l with
  | nil => intro _; rfl
  | cons a l ih =>
    intro h
    have ha : p a = true := h a (List.mem_cons_self a l)
    simp [List.takeWhile, ha]
    exact fun b hb => h b (List.mem_cons_of_mem a hb)

/-! Round-trip of the modelled JavaScript decimal conversions: `parseInt(s, 10)`
recovers the natural number that `Number.prototype.toString()` rendered. -/

/-- Decimal digit characters are digits. -/
theorem digitChar10_isDigit {d : Nat} (h : d < 10) : (digitChar10 d).isDigit = true := by
  interval_cases d <;> decide

/-- Numeric value of a decimal digit character. -/
theorem digitChar10_toNat {d : Nat} (h : d < 10) : (digitChar10 d).toNat = 48 + d := by
  interval_cases d <;> decide

/-- The accumulator of `natDigitsGo` is just appended to the produced digits. -/
theorem natDigitsGo_append (fuel : Nat) : ∀ (n : Nat) (acc : List Char),
    natDigitsGo fuel n acc = natDigitsGo fuel n [] ++ acc := by
  induction fuel with
  | zero => intro n acc; simp [natDigitsGo]
  | succ fuel ih =>
    intro n acc
    by_cases h : n < 10
    · simp [natDigitsGo, h]
    · simp only [natDigitsGo, if_neg h]
      rw [ih (n / 10) (digitChar10 (n % 10) :: acc), ih (n / 10) [digitChar10 (n % 10)]]
      simp

/-- With sufficient fuel, the digit expansion is nonempty. -/
theorem natDigitsGo_ne_nil (fuel n : Nat) (h : n < fuel) : natDigitsGo fuel n [] ≠ [] := by
  cases fuel with
  | zero => omega
  | succ fuel =>
    by_cases h10 : n < 10
    · simp [natDigitsGo, h10]
    · simp only [natDigitsGo, if_neg h10]
      rw [natDigitsGo_append]
      simp

/-- With sufficient fuel, every produced character is a decimal digit. -/
theorem natDigitsGo_all_digits (fuel : Nat) : ∀ n, n < fuel →
    ∀ c ∈ natDigitsGo fuel n [], c.isDigit = true := by
  induction fuel with
  | zero => intro n hn; omega
  | succ fuel ih =>
    intro n hn c hc
    by_cases h : n < 10
    · simp [natDigitsGo, h] at hc
      rw [hc]
      exact digitChar10_isDigit h
    · simp only [natDigitsGo, if_neg h] at hc
      rw [natDigitsGo_append] at hc
      have hd : n / 10 < n := Nat.div_lt_self (by omega) (by decide)
      rcases List.mem_append.mp hc with h1 | h2
      · exact ih (n / 10) (by omega) c h1
      · simp at h2
        rw [h2]
        exact digitChar10_isDigit (Nat.mod_lt n (by decide))

/-- Folding the decimal accumulation over the produced digits recovers the
number (shifted past any previously accumulated value). -/
theorem natDigitsGo_foldl (fuel : Nat) : ∀ n, n < fuel → ∀ init : Nat,
    (natDigitsGo fuel n []).foldl digitStep init =
      init * 10 ^ (natDigitsGo fuel n []).length + n := by
  induction fuel with
  | zero => intro n hn; omega
  | succ fuel ih =>
    intro n hn init
    by_cases h : n < 10
    · simp [natDigitsGo, h, digitStep, digitChar10_toNat h]
    · have hd : n / 10 < n := Nat.div_lt_self (by omega) (by decide)
      have h1 : n / 10 < fuel := by omega
      have hstep : natDigitsGo (fuel + 1) n [] = natDigitsGo fuel (n / 10) [digitChar10 (n % 10)] := by
        simp [natDigitsGo, h]
      rw [hstep, natDigitsGo_append, List.foldl_append, ih (n / 10) h1 init]
      have hmod : n % 10 < 10 := Nat.mod_lt n (by decide)
      simp [digitStep, digitChar10_toNat hmod, pow_succ]
      have hdm : 10 * (n / 10) + n % 10 = n := Nat.div_add_mod n 10
      generalize (10 : Nat) ^ (natDigitsGo fuel (n / 10) []).length = P
      ring_nf
      omega

/-- JavaScript round trip: `parseInt(n.toString(), 10) === n` for the natural
numbers this module stringifies. -/
theorem parseInt10_natToString10 (n : Nat) : parseInt10 (natToString10 n) = some n := by
  have hlt : n < n + 1 := Nat.lt_succ_self n
  have htake : (natDigitsGo (n + 1) n []).takeWhile Char.isDigit = natDigitsGo (n + 1) n [] :=
    takeWhileAll _ _ (natDigitsGo_all_digits (n + 1) n hlt)
  have hne : natDigitsGo (n + 1) n [] ≠ [] := natDigitsGo_ne_nil (n + 1) n hlt
  have hfold := natDigitsGo_foldl (n + 1) n hlt 0
  have hempty : (natDigitsGo (n + 1) n []).isEmpty = false := by
    cases hh : natDigitsGo (n + 1) n [] with
    | nil => exact absurd hh hne
    | cons a t => rfl
  simp only [parseInt10, natToString10, String.toList, htake]
  simp [hempty, hfold]

/-- Bool test mirroring the `case 'create': case 'update':` arms shared by the
rollback switch and the lock-producing staging branches. -/
def isCreateOrUpdate (op : Operation) : Bool :=
  match op with
  | Operation.create | Operation.update => true
  | _ => false

/-- Closed form of the rollback fold, for an arbitrary starting accumulator:
`create`/`update` entries each contribute exactly one compensating delete and
one lock-release descriptor, in response order; all other entries contribute
nothing. -/
theorem rollbackFoldEq (tenantId : Option String) :
    ∀ (l : List BatchReadWriteResponse) (acc : RollbackOutput),
    List.foldl (DynamoDbBundleServiceHelper.rollbackStep tenantId) acc l =
      { transactionRequests := acc.transactionRequests ++
          (l.filter fun r => isCreateOrUpdate r.operation).map fun r =>
            DynamoDbParamBuilder.buildDeleteParam r.id (parseInt10 r.vid) tenantId
        itemsToRemoveFromLock := acc.itemsToRemoveFromLock ++
          (l.filter fun r => isCreateOrUpdate r.operation).map fun r =>
            { id := r.id, vid := r.vid, resourceType := r.resourceType } } := by
  intro l
  induction l with
  | nil => intro acc; simp
  | cons r l ih =>
    intro acc
    cases hop : r.operation <;>
      simp [DynamoDbBundleServiceHelper.rollbackStep, hop, isCreateOrUpdate, ih,
        DynamoDbBundleServiceHelper.generateDeleteLatestRecordAndItemToRemoveFromLock,
        DynamoDbParamBuilder.buildDeleteParam]

/-- Binding a successful `Except` value. -/
theorem exceptBindOk {ε α β : Type} (a : α) (k : α → Except ε β) :
    (Except.ok a : Except ε α) >>= k = k a := rfl

/-- Binding a failed `Except` value. -/
theorem exceptBindError {ε α β : Type} (e : ε) (k : α → Except ε β) :
    (Except.error e : Except ε α) >>= k = Except.error e := rfl

/-- Unfolding of the monadic fold on a cons cell. -/
theorem foldlMConsExcept {ε σ α : Type} (f : σ → α → Except ε σ) (st : σ) (a : α)
    (l : List α) :
    List.foldlM f st (a :: l) = f st a >>= fun st' => List.foldlM f st' l := rfl

/-- Unfolding of the monadic fold on the empty list. -/
theorem foldlMNilExcept {ε σ α : Type} (f : σ → α → Except ε σ) (st : σ) :
    List.foldlM f st ([] : List α) = Except.ok st := rfl

/-- The staging fold succeeds when every `delete`/`read` request has its
identifier in the version mapping (the only failure mode is the
`undefined.toString()` `TypeError` of those two branches). -/
theorem stagingFoldOkExists (m : String → Option Nat) (tid : Option String)
    (env : StagingEnv) :
    ∀ (requests : List BatchReadWriteRequest) (st : StagingState),
    (∀ r ∈ requests, versionKnown m r = true) →
    ∃ st', List.foldlM (DynamoDbBundleServiceHelper.stepRequest m tid env) st requests =
      Except.ok st' := by
  intro requests
  induction requests with
  | nil => intro st _; exact ⟨st, rfl⟩
  | cons r l ih =>
    intro st h
    have hr : versionKnown m r = true := h r (List.mem_cons_self r l)
    have hl : ∀ x ∈ l, versionKnown m x = true := fun x hx => h x (List.mem_cons_of_mem r hx)
    cases hstep : DynamoDbBundleServiceHelper.stepRequest m tid env st r with
    | error e =>
      exfalso
      cases hop : r.operation
      case delete =>
        have hsome : (m r.id).isSome = true := by
          simpa [versionKnown, hop] using hr
        rcases Option.isSome_iff_exists.mp hsome with ⟨v, hv⟩
        simp [DynamoDbBundleServiceHelper.stepRequest, hop, hv] at hstep
      case read =>
        have hsome : (m r.id).isSome = true := by
          simpa [versionKnown, hop] using hr
        rcases Option.isSome_iff_exists.mp hsome with ⟨v, hv⟩
        simp [DynamoDbBundleServiceHelper.stepRequest, hop, hv] at hstep
      all_goals simp [DynamoDbBundleServiceHelper.stepRequest, hop] at hstep
    | ok st1 =>
      rcases ih st1 hl with ⟨st', hst'⟩
      exact ⟨st', by rw [foldlMConsExcept, hstep, exceptBindOk, hst']⟩

/-- Response invariant of the staging fold: a successful run appends, in
input order, exactly one response per recognized request, carrying that
request's operation kind (unrecognized kinds are silently skipped by the
`default` branch). -/
theorem stagingFoldResponses (m : String → Option Nat) (tid : Option String)
    (env : StagingEnv) :
    ∀ (requests : List BatchReadWriteRequest) (st st' : StagingState),
    List.foldlM (DynamoDbBundleServiceHelper.stepRequest m tid env) st requests =
      Except.ok st' →
    st'.newBundleEntryResponses.map (fun r => r.operation) =
      st.newBundleEntryResponses.map (fun r => r.operation) ++
        (requests.filter fun r => isRecognized r.operation).map (fun r => r.operation) := by
  intro requests
  induction requests with
  | nil =>
    intro st st' h
    have hst : st = st' := by
      rw [foldlMNilExcept] at h
      exact Except.ok.inj h
    subst hst
    simp
  | cons r l ih =>
    intro st st' hfold
    rw [foldlMConsExcept] at hfold
    cases hstep : DynamoDbBundleServiceHelper.stepRequest m tid env st r with
    | error e =>
      rw [hstep, exceptBindError] at hfold
      exact absurd hfold (by simp)
    | ok st1 =>
      rw [hstep, exceptBindOk] at hfold
      have ihres := ih st1 st' hfold
      cases hop : r.operation
      case create =>
        simp [DynamoDbBundleServiceHelper.stepRequest, hop] at hstep
        subst hstep
        rw [ihres]
        simp [hop, isRecognized, DynamoDbBundleServiceHelper.addStagingResponseAndItemsLocked]
      case update =>
        simp [DynamoDbBundleServiceHelper.stepRequest, hop] at hstep
        subst hstep
        rw [ihres]
        simp [hop, isRecognized, DynamoDbBundleServiceHelper.addStagingResponseAndItemsLocked]
      case delete =>
        cases hv : m r.id with
        | none => simp [DynamoDbBundleServiceHelper.stepRequest, hop, hv] at hstep
        | some v =>
          simp [DynamoDbBundleServiceHelper.stepRequest, hop, hv] at hstep
          subst hstep
          rw [ihres]
          simp [hop, isRecognized]
      case read =>
        cases hv : m r.id with
        | none => simp [DynamoDbBundleServiceHelper.stepRequest, hop, hv] at hstep
        | some v =>
          simp [DynamoDbBundleServiceHelper.stepRequest, hop, hv] at hstep
          subst hstep
          rw [ihres]
          simp [hop, isRecognized]
      case vread =>
        simp [DynamoDbBundleServiceHelper.stepRequest, hop] at hstep
        subst hstep
        rw [ihres]
        simp [hop, isRecognized]
      case patch =>
        simp [DynamoDbBundleServiceHelper.stepRequest, hop] at hstep
        subst hstep
        rw [ihres]
        simp [hop, isRecognized]

/-- Lock invariant of the staging fold: a successful run appends, in input
order, exactly one lock descriptor per `create`/`update` request and none for
any other request; `update` descriptors carry `isOriginalUpdateItem = false`,
`create` descriptors omit the flag. -/
theorem stagingFoldLocks (m : String → Option Nat) (tid : Option String)
    (env : StagingEnv) :
    ∀ (requests : List BatchReadWriteRequest) (st st' : StagingState),
    List.foldlM (DynamoDbBundleServiceHelper.stepRequest m tid env) st requests =
      Except.ok st' →
    st'.newLocks.map (fun lk => (lk.operation, lk.isOriginalUpdateItem)) =
      st.newLocks.map (fun lk => (lk.operation, lk.isOriginalUpdateItem)) ++
        (requests.filter fun r => isCreateOrUpdate r.operation).map
          (fun r => (r.operation,
            if r.operation = Operation.update then some false else none)) := by
  intro requests
  induction requests with
  | nil =>
    intro st st' h
    have hst : st = st' := by
      rw [foldlMNilExcept] at h
      exact Except.ok.inj h
    subst hst
    simp
  | cons r l ih =>
    intro st st' hfold
    rw [foldlMConsExcept] at hfold
    cases hstep : DynamoDbBundleServiceHelper.stepRequest m tid env st r with
    | error e =>
      rw [hstep, exceptBindError] at hfold
      exact absurd hfold (by simp)
    | ok st1 =>
      rw [hstep, exceptBindOk] at hfold
      have ihres := ih st1 st' hfold
      cases hop : r.operation
      case create =>
        simp [DynamoDbBundleServiceHelper.stepRequest, hop] at hstep
        subst hstep
        rw [ihres]
        simp [hop, isCreateOrUpdate,
          DynamoDbBundleServiceHelper.addStagingResponseAndItemsLocked]
      case update =>
        simp [DynamoDbBundleServiceHelper.stepRequest, hop] at hstep
        subst hstep
        rw [ihres]
        simp [hop, isCreateOrUpdate,
          DynamoDbBundleServiceHelper.addStagingResponseAndItemsLocked]
      case delete =>
        cases hv : m r.id with
        | none => simp [DynamoDbBundleServiceHelper.stepRequest, hop, hv] at hstep
        | some v =>
          simp [DynamoDbBundleServiceHelper.stepRequest, hop, hv] at hstep
          subst hstep
          rw [ihres]
          simp [hop, isCreateOrUpdate]
      case read =>
        cases hv : m r.id with
        | none => simp [DynamoDbBundleServiceHelper.stepRequest, hop, hv] at hstep
        | some v =>
          simp [DynamoDbBundleServiceHelper.stepRequest, hop, hv] at hstep
          subst hstep
          rw [ihres]
          simp [hop, isCreateOrUpdate]
      case vread =>
        simp [DynamoDbBundleServiceHelper.stepRequest, hop] at hstep
        subst hstep
        rw [ihres]
        simp [hop, isCreateOrUpdate]
      case patch =>
        simp [DynamoDbBundleServiceHelper.stepRequest, hop] at hstep
        subst hstep
        rw [ihres]
        simp [hop, isCreateOrUpdate]

/-- Lock/response correspondence invariant of the staging fold: whenever the
lock list's (identifier, parsed version, resource type) triples agree with
those of the `create`/`update` responses, a successful fold step preserves the
agreement — each `create`/`update` appends one lock and one response built
from the same staged resource, and `delete`/`read` append only non-matching
responses. -/
theorem stagingFoldTriples (m : String → Option Nat) (tid : Option String)
    (env : StagingEnv) :
    ∀ (requests : List BatchReadWriteRequest) (st st' : StagingState),
    List.foldlM (DynamoDbBundleServiceHelper.stepRequest m tid env) st requests =
      Except.ok st' →
    st.newLocks.map (fun lk => (lk.id, lk.vid, lk.resourceType)) =
      (st.newBundleEntryResponses.filter fun r => isCreateOrUpdate r.operation).map
        (fun r => (r.id, parseInt10 r.vid, r.resourceType)) →
    st'.newLocks.map (fun lk => (lk.id, lk.vid, lk.resourceType)) =
      (st'.newBundleEntryResponses.filter fun r => isCreateOrUpdate r.operation).map
        (fun r => (r.id, parseInt10 r.vid, r.resourceType)) := by
  intro requests
  induction requests with
  | nil =>
    intro st st' h hinv
    have hst : st = st' := by
      rw [foldlMNilExcept] at h
      exact Except.ok.inj h
    subst hst
    exact hinv
  | cons r l ih =>
    intro st st' hfold hinv
    rw [foldlMConsExcept] at hfold
    cases hstep : DynamoDbBundleServiceHelper.stepRequest m tid env st r with
    | error e =>
      rw [hstep, exceptBindError] at hfold
      exact absurd hfold (by simp)
    | ok st1 =>
      rw [hstep, exceptBindOk] at hfold
      refine ih st1 st' hfold ?_
      cases hop : r.operation
      case create =>
        simp [DynamoDbBundleServiceHelper.stepRequest, hop] at hstep
        subst hstep
        simp [isCreateOrUpdate,
          DynamoDbBundleServiceHelper.addStagingResponseAndItemsLocked, hinv]
      case update =>
        simp [DynamoDbBundleServiceHelper.stepRequest, hop] at hstep
        subst hstep
        simp [isCreateOrUpdate,
          DynamoDbBundleServiceHelper.addStagingResponseAndItemsLocked, hinv]
      case delete =>
        cases hv : m r.id with
        | none => simp [DynamoDbBundleServiceHelper.stepRequest, hop, hv] at hstep
        | some v =>
          simp [DynamoDbBundleServiceHelper.stepRequest, hop, hv] at hstep
          subst hstep
          simp [isCreateOrUpdate, hinv]
      case read =>
        cases hv : m r.id with
        | none => simp [DynamoDbBundleServiceHelper.stepRequest, hop, hv] at hstep
        | some v =>
          simp [DynamoDbBundleServiceHelper.stepRequest, hop, hv] at hstep
          subst hstep
          simp [isCreateOrUpdate, hinv]
      case vread =>
        simp [DynamoDbBundleServiceHelper.stepRequest, hop] at hstep
        subst hstep
        exact hinv
      case patch =>
        simp [DynamoDbBundleServiceHelper.stepRequest, hop] at hstep
        subst hstep
        exact hinv

/-- Claim C2: for every response list, `generateRollbackRequests` emits
exactly one compensating delete request and exactly one lock-release
descriptor per entry whose operation is `create` or `update` — the delete
request keyed by that entry's identifier and (numerically parsed) version
under the given tenant scope, the lock-release descriptor carrying the
identifier, the version string and the resource type — and emits nothing for
`delete`/`read` (or unrecognized) entries. -/
theorem generateRollbackRequests_compensations
    (bundleEntryResponses : List BatchReadWriteResponse) (tenantId : Option String) :
    DynamoDbBundleServiceHelper.generateRollbackRequests bundleEntryResponses tenantId =
      { transactionRequests := (bundleEntryResponses.filter fun r =>
            isCreateOrUpdate r.operation).map fun r =>
          DynamoDbParamBuilder.buildDeleteParam r.id (parseInt10 r.vid) tenantId
        itemsToRemoveFromLock := (bundleEntryResponses.filter fun r =>
            isCreateOrUpdate r.operation).map fun r =>
          { id := r.id, vid := r.vid, resourceType := r.resourceType } } := by
  unfold DynamoDbBundleServiceHelper.generateRollbackRequests
  rw [rollbackFoldEq]
  simp

/-- Claim C9: for every batch whose staging call succeeds, feeding the
response list produced by `generateStagingRequests` into
`generateRollbackRequests` yields lock-release descriptors whose
(identifier, version, resource type) triples are exactly — in the same
order — those of the lock descriptors (`newLocks`) staged by that same call:
every staged lock is released by the computed rollback and nothing else is.
Versions are compared numerically: the lock descriptor holds the parsed
number, the release descriptor the version string. -/
theorem generateStagingRequests_rollback_releases_all_locks
    (requests : List BatchReadWriteRequest) (idToVersionId : String → Option Nat)
    (tenantId : Option String) (env : StagingEnv) (out : StagingOutput)
    (hok : DynamoDbBundleServiceHelper.generateStagingRequests requests idToVersionId
      tenantId env = Except.ok out) :
    out.newLocks.map (fun lk => (lk.id, lk.vid, lk.resourceType)) =
      (DynamoDbBundleServiceHelper.generateRollbackRequests out.newStagingResponses
        tenantId).itemsToRemoveFromLock.map
          (fun i => (i.id, parseInt10 i.vid, i.resourceType)) := by
  unfold DynamoDbBundleServiceHelper.generateStagingRequests at hok
  cases hf : List.foldlM (DynamoDbBundleServiceHelper.stepRequest idToVersionId tenantId env)
      StagingState.init requests with
  | error e =>
    rw [hf, exceptMapError] at hok
    exact absurd hok (by simp)
  | ok stf =>
    rw [hf, exceptMapOk] at hok
    have hout : stf.output = out := Except.ok.inj hok
    subst hout
    have htr := stagingFoldTriples idToVersionId tenantId env requests
      StagingState.init stf hf (by simp [StagingState.init])
    unfold DynamoDbBundleServiceHelper.generateRollbackRequests
    rw [rollbackFoldEq]
    simpa [StagingState.output, List.map_map, Function.comp] using htr

/-- Claim C9 (witness): the theorem applied to the concrete single-update
batch `sampleBatchU`, whose staging call succeeds with output `sampleOutU`. -/
theorem generateStagingRequests_rollback_releases_all_locks_witness :
    sampleOutU.newLocks.map (fun lk => (lk.id, lk.vid, lk.resourceType)) =
      (DynamoDbBundleServiceHelper.generateRollbackRequests sampleOutU.newStagingResponses
        none).itemsToRemoveFromLock.map
          (fun i => (i.id, parseInt10 i.vid, i.resourceType)) :=
  generateStagingRequests_rollback_releases_all_locks sampleBatchU sampleMap none sampleEnv
    sampleOutU (by decide)

/-- Claim C1 (counterexample): a batch consisting of one recognized `delete`
operation whose identifier is absent from the version mapping makes
`generateStagingRequests` throw a `TypeError` (`vid.toString()` on
`undefined`) instead of returning a response list, so no response list of the
input's length is returned for this batch. -/
theorem generateStagingRequests_length_order_counterexample :
    (∀ r ∈ sampleBatchD, isRecognized r.operation = true) ∧
    DynamoDbBundleServiceHelper.generateStagingRequests sampleBatchD
        (fun _ => none) none sampleEnv =
      Except.error (JsError.typeError "Cannot read properties of undefined") := by
  constructor
  · decide
  · rfl

/-- Claim C1 (amended): for every batch in which every operation kind is one
of `create`, `update`, `delete`, `read` and additionally every `delete`/`read`
operation's identifier is present in the version mapping,
`generateStagingRequests` returns a response list whose operation kinds are
exactly, in order, those of the input operations — hence of exactly the same
length, with the response at position i carrying the operation kind of the
input at position i. -/
theorem generateStagingRequests_length_order
    (requests : List BatchReadWriteRequest) (idToVersionId : String → Option Nat)
    (tenantId : Option String) (env : StagingEnv)
    (hrec : ∀ r ∈ requests, isRecognized r.operation = true)
    (hver : ∀ r ∈ requests, versionKnown idToVersionId r = true) :
    ∃ out, DynamoDbBundleServiceHelper.generateStagingRequests requests idToVersionId
        tenantId env = Except.ok out ∧
      out.newStagingResponses.map (fun r => r.operation) =
        requests.map (fun r => r.operation) := by
  rcases stagingFoldOkExists idToVersionId tenantId env requests StagingState.init hver
    with ⟨stf, hf⟩
  have hresp := stagingFoldResponses idToVersionId tenantId env requests
    StagingState.init stf hf
  have hfilter : (requests.filter fun r => isRecognized r.operation) = requests :=
    List.filter_eq_self.mpr hrec
  refine ⟨stf.output, ?_, ?_⟩
  · unfold DynamoDbBundleServiceHelper.generateStagingRequests
    rw [hf, exceptMapOk]
  · have hproj : stf.output.newStagingResponses = stf.newBundleEntryResponses := rfl
    rw [hproj, hresp, hfilter]
    simp [StagingState.init]

/-- Claim C1 (witness): the amended theorem applied to the concrete
four-operation batch `sampleBatch` under `sampleMap`. -/
theorem generateStagingRequests_length_order_witness :
    ∃ out, DynamoDbBundleServiceHelper.generateStagingRequests sampleBatch sampleMap
        none sampleEnv = Except.ok out ∧
      out.newStagingResponses.map (fun r => r.operation) =
        [Operation.create, Operation.update, Operation.delete, Operation.read] :=
  generateStagingRequests_length_order sampleBatch sampleMap none sampleEnv
    (by decide) (by decide)

/-- Claim C4 (counterexample): a batch holding one `create` operation and one
`delete` operation with an unmapped identifier makes `generateStagingRequests`
throw a `TypeError`, so no lock descriptor is produced for the `create`
operation of this batch. -/
theorem generateStagingRequests_locks_counterexample :
    DynamoDbBundleServiceHelper.generateStagingRequests
        [{ id := "c1", resourceType := "Patient", operation := Operation.create,
           resource := sampleResource },
         { id := "d9", resourceType := "Patient", operation := Operation.delete,
           resource := sampleResource }]
        (fun _ => none) none sampleEnv =
      Except.error (JsError.typeError "Cannot read properties of undefined") := by
  rfl

/-- Claim C4 (amended): for every batch in which every `delete`/`read`
operation's identifier is present in the version mapping,
`generateStagingRequests` produces exactly one lock descriptor per `create`
or `update` operation, in input order, and none for any other operation;
descriptors of `update` operations carry `isOriginalUpdateItem = false` and
descriptors of `create` operations omit the flag. -/
theorem generateStagingRequests_locks
    (requests : List BatchReadWriteRequest) (idToVersionId : String → Option Nat)
    (tenantId : Option String) (env : StagingEnv)
    (hver : ∀ r ∈ requests, versionKnown idToVersionId r = true) :
    ∃ out, DynamoDbBundleServiceHelper.generateStagingRequests requests idToVersionId
        tenantId env = Except.ok out ∧
      out.newLocks.map (fun lk => (lk.operation, lk.isOriginalUpdateItem)) =
        (requests.filter fun r => isCreateOrUpdate r.operation).map
          (fun r => (r.operation,
            if r.operation = Operation.update then some false else none)) := by
  rcases stagingFoldOkExists idToVersionId tenantId env requests StagingState.init hver
    with ⟨stf, hf⟩
  have hlocks := stagingFoldLocks idToVersionId tenantId env requests
    StagingState.init stf hf
  refine ⟨stf.output, ?_, ?_⟩
  · unfold DynamoDbBundleServiceHelper.generateStagingRequests
    rw [hf, exceptMapOk]
  · have hproj : stf.output.newLocks = stf.newLocks := rfl
    rw [hproj, hlocks]
    simp [StagingState.init]

/-- Claim C4 (witness): the amended theorem applied to the concrete
four-operation batch `sampleBatch` under `sampleMap`: one `create` descriptor
without the flag and one `update` descriptor with it, none for the `delete`
and the `read`. -/
theorem generateStagingRequests_locks_witness :
    ∃ out, DynamoDbBundleServiceHelper.generateStagingRequests sampleBatch sampleMap
        none sampleEnv = Except.ok out ∧
      out.newLocks.map (fun lk => (lk.operation, lk.isOriginalUpdateItem)) =
        [(Operation.create, none), (Operation.update, some false)] :=
  generateStagingRequests_locks sampleBatch sampleMap none sampleEnv (by decide)

/-- Claim C3: within any staging run, processing a `create` operation stages
the document, the lock descriptor and the response at version 1, and
processing an `update` operation whose resource identifier is mapped to
current version V stages them at version V + 1.  The staged row carries the
numeric version (and its metadata the version string), the lock descriptor
the parsed numeric version, and the response the version string. -/
theorem generateStagingRequests_version_assignment
    (m : String → Option Nat) (tid : Option String) (env : StagingEnv)
    (st : StagingState) (cid crt : String) (cres : Resource)
    (uid urt : String) (ures : Resource) (V : Nat)
    (hV : m ures.id = some V) :
    (∃ st1 p lk resp,
      DynamoDbBundleServiceHelper.stepRequest m tid env st
          { id := cid, resourceType := crt, operation := Operation.create,
            resource := cres } = Except.ok st1 ∧
      st1.createRequests = st.createRequests ++ [p] ∧
      p.item.value.vid = 1 ∧
      p.item.value.content.meta.versionId = natToString10 1 ∧
      st1.newLocks = st.newLocks ++ [lk] ∧
      lk.vid = some 1 ∧
      st1.newBundleEntryResponses = st.newBundleEntryResponses ++ [resp] ∧
      resp.vid = natToString10 1) ∧
    (∃ st1 p lk resp,
      DynamoDbBundleServiceHelper.stepRequest m tid env st
          { id := uid, resourceType := urt, operation := Operation.update,
            resource := ures } = Except.ok st1 ∧
      st1.updateRequests = st.updateRequests ++ [p] ∧
      p.item.value.vid = V + 1 ∧
      p.item.value.content.meta.versionId = natToString10 (V + 1) ∧
      st1.newLocks = st.newLocks ++ [lk] ∧
      lk.vid = some (V + 1) ∧
      st1.newBundleEntryResponses = st.newBundleEntryResponses ++ [resp] ∧
      resp.vid = natToString10 (V + 1)) := by
  constructor
  · refine ⟨_, _, _, _, rfl, rfl, rfl, rfl, rfl, ?_, rfl, rfl⟩
    simp [DynamoDbBundleServiceHelper.addStagingResponseAndItemsLocked,
      DynamoDbUtil.prepItemForDdbInsert, parseInt10_natToString10]
  · refine ⟨_, _, _, _, rfl, rfl, ?_, ?_, rfl, ?_, rfl, ?_⟩
    · simp [DynamoDbUtil.prepItemForDdbInsert, DynamoDBConverter.marshall, hV]
    · simp [DynamoDbUtil.prepItemForDdbInsert, DynamoDBConverter.marshall, hV]
    · simp [DynamoDbBundleServiceHelper.addStagingResponseAndItemsLocked,
        DynamoDbUtil.prepItemForDdbInsert, hV, parseInt10_natToString10]
    · simp [DynamoDbBundleServiceHelper.addStagingResponseAndItemsLocked,
        DynamoDbUtil.prepItemForDdbInsert, hV]

/-- Claim C3 (witness): the theorem applied to a concrete create and a
concrete update of `"p1"` (currently at version 2 under `sampleMap`, so
staged at version 3). -/
theorem generateStagingRequests_version_assignment_witness :
    (∃ st1 p lk resp,
      DynamoDbBundleServiceHelper.stepRequest sampleMap none sampleEnv StagingState.init
          { id := "w1", resourceType := "Patient", operation := Operation.create,
            resource := sampleResource } = Except.ok st1 ∧
      st1.createRequests = StagingState.init.createRequests ++ [p] ∧
      p.item.value.vid = 1 ∧
      p.item.value.content.meta.versionId = natToString10 1 ∧
      st1.newLocks = StagingState.init.newLocks ++ [lk] ∧
      lk.vid = some 1 ∧
      st1.newBundleEntryResponses = StagingState.init.newBundleEntryResponses ++ [resp] ∧
      resp.vid = natToString10 1) ∧
    (∃ st1 p lk resp,
      DynamoDbBundleServiceHelper.stepRequest sampleMap none sampleEnv StagingState.init
          { id := "", resourceType := "Patient", operation := Operation.update,
            resource := sampleResource } = Except.ok st1 ∧
      st1.updateRequests = StagingState.init.updateRequests ++ [p] ∧
      p.item.value.vid = 3 ∧
      p.item.value.content.meta.versionId = natToString10 3 ∧
      st1.newLocks = StagingState.init.newLocks ++ [lk] ∧
      lk.vid = some 3 ∧
      st1.newBundleEntryResponses = StagingState.init.newBundleEntryResponses ++ [resp] ∧
      resp.vid = natToString10 3) :=
  generateStagingRequests_version_assignment sampleMap none sampleEnv StagingState.init
    "w1" "Patient" sampleResource "" "Patient" sampleResource 2 (by decide)

/-- Claim C10: processing an `update` operation whose resource identifier is
absent from the version mapping does not fail: the missing current version is
treated as 0 — the step result is the same as with the identifier mapped to
version 0 — and the document is staged at version 1, with the put write
request, the lock descriptor and the response emitted exactly as for a mapped
identifier. -/
theorem generateStagingRequests_update_unmapped
    (m : String → Option Nat) (tid : Option String) (env : StagingEnv)
    (st : StagingState) (uid urt : String) (ures : Resource)
    (hnone : m ures.id = none) :
    DynamoDbBundleServiceHelper.stepRequest m tid env st
        { id := uid, resourceType := urt, operation := Operation.update,
          resource := ures } =
      DynamoDbBundleServiceHelper.stepRequest
        (fun x => if x = ures.id then some 0 else m x) tid env st
        { id := uid, resourceType := urt, operation := Operation.update,
          resource := ures } ∧
    (∃ st1 p lk resp,
      DynamoDbBundleServiceHelper.stepRequest m tid env st
          { id := uid, resourceType := urt, operation := Operation.update,
            resource := ures } = Except.ok st1 ∧
      st1.updateRequests = st.updateRequests ++ [p] ∧
      p.item.value.vid = 1 ∧
      p.item.value.content.meta.versionId = natToString10 1 ∧
      st1.newLocks = st.newLocks ++ [lk] ∧
      lk.vid = some 1 ∧
      st1.newBundleEntryResponses = st.newBundleEntryResponses ++ [resp] ∧
      resp.vid = natToString10 1) := by
  constructor
  · simp [DynamoDbBundleServiceHelper.stepRequest, hnone]
  · refine ⟨_, _, _, _, rfl, rfl, ?_, ?_, rfl, ?_, rfl, ?_⟩
    · simp [DynamoDbUtil.prepItemForDdbInsert, DynamoDBConverter.marshall, hnone]
    · simp [DynamoDbUtil.prepItemForDdbInsert, DynamoDBConverter.marshall, hnone]
    · simp [DynamoDbBundleServiceHelper.addStagingResponseAndItemsLocked,
        DynamoDbUtil.prepItemForDdbInsert, hnone, parseInt10_natToString10]
    · simp [DynamoDbBundleServiceHelper.addStagingResponseAndItemsLocked,
        DynamoDbUtil.prepItemForDdbInsert, hnone]

/-- Claim C10 (witness): the theorem applied to a concrete update of `"p1"`
under the empty version mapping: it is staged at version 1. -/
theorem generateStagingRequests_update_unmapped_witness :
    DynamoDbBundleServiceHelper.stepRequest (fun _ => none) none sampleEnv
        StagingState.init
        { id := "", resourceType := "Patient", operation := Operation.update,
          resource := sampleResource } =
      DynamoDbBundleServiceHelper.stepRequest
        (fun x => if x = sampleResource.id then some 0 else none) none sampleEnv
        StagingState.init
        { id := "", resourceType := "Patient", operation := Operation.update,
          resource := sampleResource } ∧
    (∃ st1 p lk resp,
      DynamoDbBundleServiceHelper.stepRequest (fun _ => none) none sampleEnv
          StagingState.init
          { id := "", resourceType := "Patient", operation := Operation.update,
            resource := sampleResource } = Except.ok st1 ∧
      st1.updateRequests = StagingState.init.updateRequests ++ [p] ∧
      p.item.value.vid = 1 ∧
      p.item.value.content.meta.versionId = natToString10 1 ∧
      st1.newLocks = StagingState.init.newLocks ++ [lk] ∧
      lk.vid = some 1 ∧
      st1.newBundleEntryResponses = StagingState.init.newBundleEntryResponses ++ [resp] ∧
      resp.vid = natToString10 1) :=
  generateStagingRequests_update_unmapped (fun _ => none) none sampleEnv
    StagingState.init "" "Patient" sampleResource rfl

/-- The staging fold does not read the oracle environment when every `create`
request carries a non-empty (pre-supplied) identifier and no request is a
`delete`: the generated uuid is discarded for identified creates, and only
the `delete` branch reads the wall clock. -/
theorem stagingFoldEnvIrrelevant (m : String → Option Nat) (tid : Option String)
    (env1 env2 : StagingEnv) :
    ∀ (requests : List BatchReadWriteRequest) (st : StagingState),
    (∀ r ∈ requests, r.operation = Operation.create → ¬(r.id = "")) →
    (∀ r ∈ requests, ¬(r.operation = Operation.delete)) →
    List.foldlM (DynamoDbBundleServiceHelper.stepRequest m tid env1) st requests =
      List.foldlM (DynamoDbBundleServiceHelper.stepRequest m tid env2) st requests := by
  intro requests
  induction requests with
  | nil => intro st _ _; rfl
  | cons r l ih =>
    intro st hid hdel
    have hstep : DynamoDbBundleServiceHelper.stepRequest m tid env1 st r =
        DynamoDbBundleServiceHelper.stepRequest m tid env2 st r := by
      cases hop : r.operation
      case create =>
        have hne : ¬(r.id = "") := hid r (List.mem_cons_self r l) hop
        simp [DynamoDbBundleServiceHelper.stepRequest, hop, hne]
      case update => simp [DynamoDbBundleServiceHelper.stepRequest, hop]
      case delete => exact absurd hop (hdel r (List.mem_cons_self r l))
      case read => simp [DynamoDbBundleServiceHelper.stepRequest, hop]
      case vread => simp [DynamoDbBundleServiceHelper.stepRequest, hop]
      case patch => simp [DynamoDbBundleServiceHelper.stepRequest, hop]
    rw [foldlMConsExcept, foldlMConsExcept, hstep]
    cases hres : DynamoDbBundleServiceHelper.stepRequest m tid env2 st r with
    | error e => rw [exceptBindError, exceptBindError]
    | ok st1 =>
      rw [exceptBindOk, exceptBindOk]
      exact ih st1 (fun x hx => hid x (List.mem_cons_of_mem r hx))
        (fun x hx => hdel x (List.mem_cons_of_mem r hx))

/-- Claim C7 (counterexample): two invocations of `generateStagingRequests`
on identical inputs — a single-delete batch whose identifier is mapped (and
which vacuously gives every create a pre-supplied identifier), the same
version mapping and the same tenant scope — but at different wall-clock
readings return structurally different outputs, because the delete response
embeds `new Date().toISOString()`. -/
theorem generateStagingRequests_deterministic_counterexample :
    (∀ r ∈ sampleBatchD, r.operation = Operation.create → ¬(r.id = "")) ∧
    ¬(DynamoDbBundleServiceHelper.generateStagingRequests sampleBatchD sampleMap none
        sampleEnv =
      DynamoDbBundleServiceHelper.generateStagingRequests sampleBatchD sampleMap none
        sampleEnvB) := by
  constructor
  · decide
  · decide

/-- Claim C7 (amended): for any two invocations of `generateStagingRequests`
with identical inputs — the same batch in which every `create` carries a
pre-supplied identifier and which contains no `delete` operation, the same
version mapping, and the same tenant scope — the two outputs are structurally
identical, whatever the identifier-generation and wall-clock oracles of each
invocation were.  (With a `delete` in the batch the outputs differ in that
delete response's wall-clock `lastModified`, as the counterexample shows.) -/
theorem generateStagingRequests_deterministic
    (requests : List BatchReadWriteRequest) (idToVersionId : String → Option Nat)
    (tenantId : Option String) (env1 env2 : StagingEnv)
    (hid : ∀ r ∈ requests, r.operation = Operation.create → ¬(r.id = ""))
    (hdel : ∀ r ∈ requests, ¬(r.operation = Operation.delete)) :
    DynamoDbBundleServiceHelper.generateStagingRequests requests idToVersionId
        tenantId env1 =
      DynamoDbBundleServiceHelper.generateStagingRequests requests idToVersionId
        tenantId env2 := by
  unfold DynamoDbBundleServiceHelper.generateStagingRequests
  rw [stagingFoldEnvIrrelevant idToVersionId tenantId env1 env2 requests
    StagingState.init hid hdel]

/-- Claim C7 (witness): the amended theorem applied to the concrete
delete-free batch `sampleBatchND` and the two distinct oracle environments. -/
theorem generateStagingRequests_deterministic_witness :
    DynamoDbBundleServiceHelper.generateStagingRequests sampleBatchND sampleMap none
        sampleEnv =
      DynamoDbBundleServiceHelper.generateStagingRequests sampleBatchND sampleMap none
        sampleEnvB :=
  generateStagingRequests_deterministic sampleBatchND sampleMap none sampleEnv sampleEnvB
    (by decide) (by decide)

/-- Claim C6 (counterexample): for a batch holding one `delete` whose
identifier is absent from the version mapping, `generateStagingRequests` does
not return its generated requests at all: stringifying the missing version
for the response entry (`vid.toString()` on `undefined`) throws a
`TypeError`, so the caller receives an exception rather than a request
carrying an undefined version. -/
theorem generateStagingRequests_unknown_version_counterexample :
    DynamoDbBundleServiceHelper.generateStagingRequests
        [{ id := "p9", resourceType := "Patient", operation := Operation.delete,
           resource := sampleResource }]
        (fun _ => none) none sampleEnv =
      Except.error (JsError.typeError "Cannot read properties of undefined") := by
  rfl

/-- Claim C6 (amended): for every `delete` (resp. `read`) operation whose
identifier is absent from the version mapping, the staging step constructs
the status-transition parameters (resp. the point-read key) with an undefined
(`none`) version — no fail-fast validation happens before the request is
built — but the step then throws a `TypeError` while stringifying the missing
version for the response entry, so the invalid request is never returned to
the caller. -/
theorem generateStagingRequests_unknown_version
    (m : String → Option Nat) (tid : Option String) (env : StagingEnv)
    (st : StagingState) (did drt rid rrt : String) (dres rres : Resource)
    (hd : m did = none) (hr : m rid = none) :
    ((DynamoDbParamBuilder.buildUpdateDocumentStatusParam DOCUMENT_STATUS.LOCKED
        DOCUMENT_STATUS.PENDING_DELETE did (m did) drt tid).vid = none ∧
      DynamoDbBundleServiceHelper.stepRequest m tid env st
          { id := did, resourceType := drt, operation := Operation.delete,
            resource := dres } =
        Except.error (JsError.typeError "Cannot read properties of undefined")) ∧
    (({ id := buildHashKey rid tid, vid := m rid } : DdbKey).vid = none ∧
      DynamoDbBundleServiceHelper.stepRequest m tid env st
          { id := rid, resourceType := rrt, operation := Operation.read,
            resource := rres } =
        Except.error (JsError.typeError "Cannot read properties of undefined")) := by
  refine ⟨⟨?_, ?_⟩, ?_, ?_⟩
  · simp [DynamoDbParamBuilder.buildUpdateDocumentStatusParam, hd]
  · simp [DynamoDbBundleServiceHelper.stepRequest, hd]
  · simp [hr]
  · simp [DynamoDbBundleServiceHelper.stepRequest, hr]

/-- Claim C6 (witness): the amended theorem applied to a concrete `delete` of
`"p9"` and `read` of `"p8"` under the empty version mapping. -/
theorem generateStagingRequests_unknown_version_witness :
    ((DynamoDbParamBuilder.buildUpdateDocumentStatusParam DOCUMENT_STATUS.LOCKED
        DOCUMENT_STATUS.PENDING_DELETE "p9" ((fun _ => none : String → Option Nat) "p9")
        "Patient" none).vid = none ∧
      DynamoDbBundleServiceHelper.stepRequest (fun _ => none) none sampleEnv
          StagingState.init
          { id := "p9", resourceType := "Patient", operation := Operation.delete,
            resource := sampleResource } =
        Except.error (JsError.typeError "Cannot read properties of undefined")) ∧
    (({ id := buildHashKey "p8" none,
        vid := (fun _ => none : String → Option Nat) "p8" } : DdbKey).vid = none ∧
      DynamoDbBundleServiceHelper.stepRequest (fun _ => none) none sampleEnv
          StagingState.init
          { id := "p8", resourceType := "Patient", operation := Operation.read,
            resource := sampleResource } =
        Except.error (JsError.typeError "Cannot read properties of undefined")) :=
  generateStagingRequests_unknown_version (fun _ => none) none sampleEnv
    StagingState.init "p9" "Patient" "p8" "Patient" sampleResource sampleResource rfl rfl

/-- The optional-chained item lookup yields `undefined` past the end of the
raw-result sequence. -/
theorem readResultItemAt_none (readResult : Option ReadResult) (index : Nat)
    (h : rawResultLength readResult ≤ index) :
    DynamoDbBundleServiceHelper.readResultItemAt readResult index = none := by
  cases readResult with
  | none => rfl
  | some rr =>
    simp [rawResultLength] at h
    simp [DynamoDbBundleServiceHelper.readResultItemAt, List.getElem?_eq_none h]

/-- When the raw results run out before the remaining `read` placeholders do,
the reconciliation loop throws. -/
theorem populateGoError (readResult : Option ReadResult) :
    ∀ (responses : List BatchReadWriteResponse) (index : Nat),
    0 < countReads responses →
    rawResultLength readResult < index + countReads responses →
    DynamoDbBundleServiceHelper.populateGo readResult responses index =
      Except.error (JsError.thrownError "Failed to fulfill all READ requests") := by
  intro responses
  induction responses with
  | nil => intro index h0 _; simp [countReads] at h0
  | cons r rest ih =>
    intro index h0 hlt
    by_cases hop : r.operation = Operation.read
    · have hcount : countReads (r :: rest) = countReads rest + 1 := by
        simp [countReads, hop]
      cases hitem : DynamoDbBundleServiceHelper.readResultItemAt readResult index with
      | none => simp [DynamoDbBundleServiceHelper.populateGo, hop, hitem]
      | some mitem =>
        have hidx : index < rawResultLength readResult := by
          by_contra hge
          rw [readResultItemAt_none readResult index (by omega)] at hitem
          exact Option.noConfusion hitem
        have h0' : 0 < countReads rest := by omega
        have hlt' : rawResultLength readResult < (index + 1) + countReads rest := by omega
        simp [DynamoDbBundleServiceHelper.populateGo, hop, hitem,
          ih (index + 1) h0' hlt', exceptMapError]
    · have hcount : countReads (r :: rest) = countReads rest := by
        simp [countReads, hop]
      have h0' : 0 < countReads rest := by omega
      have hlt' : rawResultLength readResult < index + countReads rest := by omega
      simp [DynamoDbBundleServiceHelper.populateGo, hop, ih index h0' hlt',
        exceptMapError]

/-- In-order consumption of the raw results: on success, the k-th `read`
entry of the returned list is the k-th `read` placeholder of the input,
populated from the k-th raw result counted from the loop's starting index. -/
theorem populateGoOrdered (readResult : Option ReadResult) :
    ∀ (responses : List BatchReadWriteResponse) (index : Nat)
      (out : List BatchReadWriteResponse),
    DynamoDbBundleServiceHelper.populateGo readResult responses index = Except.ok out →
    ∀ k, k < countReads responses →
    ∃ mk, DynamoDbBundleServiceHelper.readResultItemAt readResult (index + k) = some mk ∧
      (out.filter fun r => r.operation = Operation.read)[k]? =
        ((responses.filter fun r => r.operation = Operation.read)[k]?).map
          (fun r => { r with
            resource := some (DynamoDbUtil.cleanItem (DynamoDBConverter.unmarshall mk))
            lastModified :=
              if (DynamoDbUtil.cleanItem (DynamoDBConverter.unmarshall mk)).meta.lastUpdated
                  = "" then ""
              else (DynamoDbUtil.cleanItem
                (DynamoDBConverter.unmarshall mk)).meta.lastUpdated }) := by
  intro responses
  induction responses with
  | nil => intro index out h k hk; simp [countReads] at hk
  | cons r rest ih =>
    intro index out h k hk
    by_cases hop : r.operation = Operation.read
    · cases hitem : DynamoDbBundleServiceHelper.readResultItemAt readResult index with
      | none => simp [DynamoDbBundleServiceHelper.populateGo, hop, hitem] at h
      | some mitem =>
        cases hrest : DynamoDbBundleServiceHelper.populateGo readResult rest (index + 1) with
        | error e =>
          simp [DynamoDbBundleServiceHelper.populateGo, hop, hitem, hrest,
            exceptMapError] at h
        | ok tail =>
          simp [DynamoDbBundleServiceHelper.populateGo, hop, hitem, hrest,
            exceptMapOk] at h
          subst h
          cases k with
          | zero =>
            refine ⟨mitem, by simpa using hitem, ?_⟩
            simp [hop]
          | succ k' =>
            have hcount : countReads (r :: rest) = countReads rest + 1 := by
              simp [countReads, hop]
            obtain ⟨mk, hmk, hfil⟩ := ih (index + 1) tail hrest k' (by omega)
            refine ⟨mk, ?_, ?_⟩
            · have harith : index + (k' + 1) = (index + 1) + k' := by omega
              rw [harith]
              exact hmk
            · simpa [hop] using hfil
    · cases hrest : DynamoDbBundleServiceHelper.populateGo readResult rest index with
      | error e =>
        simp [DynamoDbBundleServiceHelper.populateGo, hop, hrest, exceptMapError] at h
      | ok tail =>
        simp [DynamoDbBundleServiceHelper.populateGo, hop, hrest, exceptMapOk] at h
        subst h
        have hcount : countReads (r :: rest) = countReads rest := by
          simp [countReads, hop]
        obtain ⟨mk, hmk, hfil⟩ := ih index tail hrest k (by omega)
        refine ⟨mk, hmk, ?_⟩
        simpa [hop] using hfil

/-- Claim C5: `populateBundleEntryResponseWithReadResult` assigns raw read
results to `read` response entries strictly in order — on success the k-th
`read` entry of the returned sequence is the k-th `read` placeholder of the
input populated from the k-th raw result — and whenever the raw-result
sequence is shorter than the number of `read` entries the reconciler throws
`Error('Failed to fulfill all READ requests')` instead of returning. -/
theorem populateBundleEntryResponseWithReadResult_ordered
    (bundleEntryResponses : List BatchReadWriteResponse) (readResult : Option ReadResult) :
    (rawResultLength readResult < countReads bundleEntryResponses →
      DynamoDbBundleServiceHelper.populateBundleEntryResponseWithReadResult
          bundleEntryResponses readResult =
        Except.error (JsError.thrownError "Failed to fulfill all READ requests")) ∧
    (∀ out, DynamoDbBundleServiceHelper.populateBundleEntryResponseWithReadResult
        bundleEntryResponses readResult = Except.ok out →
      ∀ k, k < countReads bundleEntryResponses →
      ∃ mk, DynamoDbBundleServiceHelper.readResultItemAt readResult k = some mk ∧
        (out.filter fun r => r.operation = Operation.read)[k]? =
          ((bundleEntryResponses.filter fun r =>
              r.operation = Operation.read)[k]?).map
            (fun r => { r with
              resource := some (DynamoDbUtil.cleanItem (DynamoDBConverter.unmarshall mk))
              lastModified :=
                if (DynamoDbUtil.cleanItem
                    (DynamoDBConverter.unmarshall mk)).meta.lastUpdated = "" then ""
                else (DynamoDbUtil.cleanItem
                  (DynamoDBConverter.unmarshall mk)).meta.lastUpdated })) := by
  constructor
  · intro hlt
    exact populateGoError readResult bundleEntryResponses 0 (by omega) (by omega)
  · intro out hok k hk
    have h := populateGoOrdered readResult bundleEntryResponses 0 out hok k hk
    simpa using h

/-- Claim C5 (witness): the theorem applied to a concrete single-placeholder
list — reconciling against an absent raw result throws, and reconciling
against a one-item raw result populates the placeholder from it. -/
theorem populateBundleEntryResponseWithReadResult_ordered_witness :
    DynamoDbBundleServiceHelper.populateBundleEntryResponseWithReadResult
        [sampleReadResponse] none =
      Except.error (JsError.thrownError "Failed to fulfill all READ requests") ∧
    (∃ mk, DynamoDbBundleServiceHelper.readResultItemAt (some sampleReadResult) 0 =
        some mk ∧
      ([sampleFilledResponse].filter fun r => r.operation = Operation.read)[0]? =
        (([sampleReadResponse].filter fun r =>
            r.operation = Operation.read)[0]?).map
          (fun r => { r with
            resource := some (DynamoDbUtil.cleanItem (DynamoDBConverter.unmarshall mk))
            lastModified :=
              if (DynamoDbUtil.cleanItem
                  (DynamoDBConverter.unmarshall mk)).meta.lastUpdated = "" then ""
              else (DynamoDbUtil.cleanItem
                (DynamoDBConverter.unmarshall mk)).meta.lastUpdated })) :=
  ⟨(populateBundleEntryResponseWithReadResult_ordered [sampleReadResponse] none).1
      (by decide),
   (populateBundleEntryResponseWithReadResult_ordered [sampleReadResponse]
      (some sampleReadResult)).2 [sampleFilledResponse] (by decide) 0 (by decide)⟩

/-- Frame property of the reconciliation loop: on success the returned list
has the input's length, non-`read` entries are returned unchanged, and `read`
entries keep their identifier, version string, operation and resource type
(only `resource` and `lastModified` are overwritten). -/
theorem populateGoFrame (readResult : Option ReadResult) :
    ∀ (responses : List BatchReadWriteResponse) (index : Nat)
      (out : List BatchReadWriteResponse),
    DynamoDbBundleServiceHelper.populateGo readResult responses index = Except.ok out →
    out.length = responses.length ∧
    ∀ i, i < responses.length →
    ∃ r o, responses[i]? = some r ∧ out[i]? = some o ∧
      (¬(r.operation = Operation.read) → o = r) ∧
      (r.operation = Operation.read →
        o.id = r.id ∧ o.vid = r.vid ∧ o.operation = r.operation ∧
        o.resourceType = r.resourceType) := by
  intro responses
  induction responses with
  | nil =>
    intro index out h
    have hout : out = [] := by
      have : Except.ok ([] : List BatchReadWriteResponse) = Except.ok out := h
      exact (Except.ok.inj this).symm
    subst hout
    exact ⟨rfl, fun i hi => absurd hi (by simp)⟩
  | cons r rest ih =>
    intro index out h
    by_cases hop : r.operation = Operation.read
    · cases hitem : DynamoDbBundleServiceHelper.readResultItemAt readResult index with
      | none => simp [DynamoDbBundleServiceHelper.populateGo, hop, hitem] at h
      | some mitem =>
        cases hrest : DynamoDbBundleServiceHelper.populateGo readResult rest (index + 1) with
        | error e =>
          simp [DynamoDbBundleServiceHelper.populateGo, hop, hitem, hrest,
            exceptMapError] at h
        | ok tail =>
          simp [DynamoDbBundleServiceHelper.populateGo, hop, hitem, hrest,
            exceptMapOk] at h
          subst h
          obtain ⟨hlen, hpt⟩ := ih (index + 1) tail hrest
          refine ⟨by simpa using hlen, ?_⟩
          intro i hi
          cases i with
          | zero =>
            exact ⟨r, _, List.getElem?_cons_zero, List.getElem?_cons_zero,
              fun hc => absurd hop hc, fun _ => ⟨rfl, rfl, hop.symm, rfl⟩⟩
          | succ i' =>
            have hi' : i' < rest.length := by simpa using hi
            obtain ⟨rr, oo, h1, h2, h3, h4⟩ := hpt i' hi'
            exact ⟨rr, oo, by simpa using h1, by simpa using h2, h3, h4⟩
    · cases hrest : DynamoDbBundleServiceHelper.populateGo readResult rest index with
      | error e =>
        simp [DynamoDbBundleServiceHelper.populateGo, hop, hrest, exceptMapError] at h
      | ok tail =>
        simp [DynamoDbBundleServiceHelper.populateGo, hop, hrest, exceptMapOk] at h
        subst h
        obtain ⟨hlen, hpt⟩ := ih index tail hrest
        refine ⟨by simpa using hlen, ?_⟩
        intro i hi
        cases i with
        | zero =>
          exact ⟨r, r, List.getElem?_cons_zero, List.getElem?_cons_zero,
            fun _ => rfl, fun _ => ⟨rfl, rfl, rfl, rfl⟩⟩
        | succ i' =>
          have hi' : i' < rest.length := by simpa using hi
          obtain ⟨rr, oo, h1, h2, h3, h4⟩ := hpt i' hi'
          exact ⟨rr, oo, by simpa using h1, by simpa using h2, h3, h4⟩

/-- Claim C8: when `populateBundleEntryResponseWithReadResult` succeeds, the
returned sequence has the input's length and order; every entry whose
operation is not `read` is returned completely unchanged, and `read` entries
keep their identifier, version, operation and resource type — only their
`resource` payload and `lastModified` fields are modified. -/
theorem populateBundleEntryResponseWithReadResult_frame
    (bundleEntryResponses : List BatchReadWriteResponse) (readResult : Option ReadResult)
    (out : List BatchReadWriteResponse)
    (hok : DynamoDbBundleServiceHelper.populateBundleEntryResponseWithReadResult
      bundleEntryResponses readResult = Except.ok out) :
    out.length = bundleEntryResponses.length ∧
    ∀ i, i < bundleEntryResponses.length →
    ∃ r o, bundleEntryResponses[i]? = some r ∧ out[i]? = some o ∧
      (¬(r.operation = Operation.read) → o = r) ∧
      (r.operation = Operation.read →
        o.id = r.id ∧ o.vid = r.vid ∧ o.operation = r.operation ∧
        o.resourceType = r.resourceType) :=
  populateGoFrame readResult bundleEntryResponses 0 out hok

/-- Claim C8 (witness): the theorem applied to a concrete two-entry list (one
`create` entry, one `read` placeholder) reconciled with `sampleReadResult`:
the `create` entry comes back unchanged and the `read` entry keeps its
identity fields. -/
theorem populateBundleEntryResponseWithReadResult_frame_witness :
    ([sampleCreateResponse, sampleFilledResponse] :
        List BatchReadWriteResponse).length =
      ([sampleCreateResponse, sampleReadResponse] :
        List BatchReadWriteResponse).length ∧
    ∀ i, i < ([sampleCreateResponse, sampleReadResponse] :
        List BatchReadWriteResponse).length →
    ∃ r o, ([sampleCreateResponse, sampleReadResponse] :
        List BatchReadWriteResponse)[i]? = some r ∧
      ([sampleCreateResponse, sampleFilledResponse] :
        List BatchReadWriteResponse)[i]? = some o ∧
      (¬(r.operation = Operation.read) → o = r) ∧
      (r.operation = Operation.read →
        o.id = r.id ∧ o.vid = r.vid ∧ o.operation = r.operation ∧
        o.resourceType = r.resourceType) :=
  populateBundleEntryResponseWithReadResult_frame
    [sampleCreateResponse, sampleReadResponse] (some sampleReadResult)
    [sampleCreateResponse, sampleFilledResponse] (by decide)
